import Mathlib

/-!
Shallow embedding of the PROXYRE-ENCLAVE-APP repository (Rust).

The transport layer (`src/protocol_helpers.rs`) is modelled by explicit
event traces: each call to the POSIX `send`/`recv` primitive consumes one
event of the trace.  Machine bytes are `Nat` values below 256, buffers are
`List Nat`.  A Rust `Result<_, String>` return is `Outcome.ok` /
`Outcome.error`; a Rust panic (slice index out of bounds, `unwrap` on
`Err`) is `Outcome.panic`; exhausting the supplied event trace while the
loop still waits for more I/O is `Outcome.blocked` (the call has not
returned within the trace).
-/

/-- One result of the POSIX `send` syscall as consumed by `send_loop`:
the kernel accepted `n` bytes, the call was interrupted (`EINTR`), or it
failed with another error. -/
inductive SendEvent where
  | accepted (n : Nat)
  | eintr
  | fail (msg : String)
  deriving Repr, DecidableEq

/-- One result of the POSIX `recv` syscall as consumed by `recv_loop`:
a chunk of bytes was delivered (a `[]` chunk is a zero-length read, what a
closed peer produces forever), the call was interrupted (`EINTR`), or it
failed with another error. -/
inductive RecvEvent where
  | chunk (data : List Nat)
  | eintr
  | fail (msg : String)
  deriving Repr, DecidableEq

/-- Outcome of running an embedded Rust function on a finite event trace. -/
inductive Outcome (α : Type) where
  | ok (v : α)
  | error (msg : String)
  | panic
  | blocked
  deriving Repr, DecidableEq

/-- `BUF_MAX_LEN` from `src/lib.rs`: the fixed key-buffer size of the server. -/
def BUF_MAX_LEN : Nat := 32

/-- `BACKLOG` from `src/lib.rs`. -/
def BACKLOG : Nat := 128

/-- `MAX_CONNECTION_ATTEMPTS` from `src/lib.rs`. -/
def MAX_CONNECTION_ATTEMPTS : Nat := 5

/-- Writing a delivered chunk `d` into `buf` at offset `off`, as
`recv(fd, &mut buf[off..len])` does when it returns `d.length` bytes. -/
def writeAt (buf : List Nat) (off : Nat) (d : List Nat) : List Nat :=
  buf.take off ++ d ++ buf.drop (off + d.length)

/-- The `while send_bytes < len` loop of `send_loop`
(`src/protocol_helpers.rs:147`).  `sent` is `send_bytes`.  Returns the
outcome together with the transcript of bytes put on the wire; each
`accepted n` event sends the first `n` bytes of the slice
`buf[sent..len]` (the code then advances `send_bytes` by the returned
size).  An `eintr` event is mapped to size `0` by the code and retried.
Slicing `buf[sent..len]` with `len > buf.len()` is a Rust panic. -/
def sendLoopGo (buf : List Nat) (len : Nat) :
    List SendEvent → Nat → Outcome Unit × List Nat
  | [], sent =>
    if len ≤ sent then (.ok (), [])
    else if buf.length < len then (.panic, [])
    else (.blocked, [])
  | e :: rest, sent =>
    if len ≤ sent then (.ok (), [])
    else if buf.length < len then (.panic, [])
    else
      match e with
      | .accepted n =>
          let out := sendLoopGo buf len rest (sent + n)
          (out.1, ((buf.take len).drop sent).take n ++ out.2)
      | .eintr => sendLoopGo buf len rest (sent + 0)
      | .fail m => (.error m, [])

/-- `send_loop(fd, buf, len)` (`src/protocol_helpers.rs:147`): the
`u64 → usize` conversion always succeeds on a 64-bit target, then the
send loop runs from `send_bytes = 0`. -/
def send_loop (buf : List Nat) (len : Nat) (evs : List SendEvent) :
    Outcome Unit × List Nat :=
  sendLoopGo buf len evs 0

/-- The `while recv_bytes < len` loop of `recv_loop`
(`src/protocol_helpers.rs:223`).  `rcvd` is `recv_bytes`.  Returns the
outcome (final buffer on success) and the unconsumed events.  A delivered
chunk lands at offset `rcvd` of the buffer and advances `recv_bytes` by
its length; `eintr` is mapped to size `0` and retried — and so is a
zero-length read (`chunk []`), which is why a closed peer loops forever.
Slicing `buf[rcvd..len]` with `len > buf.len()` is a Rust panic. -/
def recvLoopGo (len : Nat) :
    List RecvEvent → List Nat → Nat → Outcome (List Nat) × List RecvEvent
  | [], buf, rcvd =>
    if len ≤ rcvd then (.ok buf, [])
    else if buf.length < len then (.panic, [])
    else (.blocked, [])
  | e :: rest, buf, rcvd =>
    if len ≤ rcvd then (.ok buf, e :: rest)
    else if buf.length < len then (.panic, e :: rest)
    else
      match e with
      | .chunk d => recvLoopGo len rest (writeAt buf rcvd d) (rcvd + d.length)
      | .eintr => recvLoopGo len rest buf (rcvd + 0)
      | .fail m => (.error m, rest)

/-- `recv_loop(fd, buf, len)` (`src/protocol_helpers.rs:223`). -/
def recv_loop (evs : List RecvEvent) (buf : List Nat) (len : Nat) :
    Outcome (List Nat) × List RecvEvent :=
  recvLoopGo len evs buf 0

/-- `LittleEndian::write_u64` restricted to `w` bytes: the little-endian
byte string of `v`, least significant byte first. -/
def leBytes : Nat → Nat → List Nat
  | 0, _ => []
  | w + 1, v => v % 256 :: leBytes w (v / 256)

/-- `LittleEndian::read_u64` over a byte list (least significant first). -/
def leRead : List Nat → Nat
  | [] => 0
  | b :: rest => b + 256 * leRead rest

/-- `send_u64(fd, val)` (`src/protocol_helpers.rs:46`): writes the 8-byte
little-endian encoding of `val` into a stack buffer and sends it with
`send_loop(fd, buf, 8)`. -/
def send_u64 (v : Nat) (evs : List SendEvent) : Outcome Unit × List Nat :=
  send_loop (leBytes 8 v) 8 evs

/-- `recv_u64(fd)` (`src/protocol_helpers.rs:92`): receives exactly 8
bytes into a zeroed stack buffer with `recv_loop`, then decodes them as a
little-endian `u64`. -/
def recv_u64 (evs : List RecvEvent) : Outcome Nat × List RecvEvent :=
  match recv_loop evs (List.replicate 8 0) 8 with
  | (.ok buf, rest) => (.ok (leRead (buf.take 8)), rest)
  | (.error m, rest) => (.error m, rest)
  | (.panic, rest) => (.panic, rest)
  | (.blocked, rest) => (.blocked, rest)

/-- What one iteration of the `for i in 0..MAX_CONNECTION_ATTEMPTS` loop of
`vsock_connect` (`src/lib.rs:364`) observes for attempt `i`: `socket()`
itself failed, `connect()` failed, or `connect()` succeeded. -/
inductive AttemptResult where
  | sockErr (msg : String)
  | connErr (msg : String)
  | connOk
  deriving Repr, DecidableEq

/-- Observable resource/timing events of `vsock_connect`: creation of the
socket for attempt `i`, the backoff sleep of `secs` seconds, and the
`VsockSocket::drop` teardown (shutdown + close) of attempt `i`'s
descriptor at the end of that iteration's scope. -/
inductive ConnEvent where
  | create (i : Nat)
  | sleep (secs : Nat)
  | dropFd (i : Nat)
  deriving Repr, DecidableEq

/-- The attempt loop of `vsock_connect` (`src/lib.rs:364`).  `i` is the
loop index, `rem` the remaining iterations of `0..MAX_CONNECTION_ATTEMPTS`,
`errMsg` the `err_msg` accumulator.  A `socket()` failure is returned at
once through `?`; a successful `connect` returns the wrapped descriptor
(identified by its attempt index) without dropping it; a failed `connect`
records the message, sleeps `2 ^ i` seconds, and drops the descriptor at
the end of the iteration before the next attempt.  After the loop the last
connect error is returned. -/
def vsockConnectGo (res : Nat → AttemptResult) :
    Nat → Nat → String → Except String Nat × List ConnEvent
  | _, 0, errMsg => (.error errMsg, [])
  | i, rem + 1, _ =>
    match res i with
    | .sockErr m => (.error ("Failed to create the socket: " ++ m), [])
    | .connOk => (.ok i, [.create i])
    | .connErr m =>
        let out := vsockConnectGo res (i + 1) rem ("Failed to connect: " ++ m)
        (out.1, .create i :: .sleep (2 ^ i) :: .dropFd i :: out.2)

/-- `vsock_connect(cid, port)` (`src/lib.rs:364`): runs the attempt loop
from `i = 0` with `err_msg` initialised to the empty string. -/
def vsock_connect (res : Nat → AttemptResult) : Except String Nat × List ConnEvent :=
  vsockConnectGo res 0 MAX_CONNECTION_ATTEMPTS ""

/-- Total seconds slept in a `vsock_connect` event trace. -/
def totalSleep : List ConnEvent → Nat
  | [] => 0
  | .sleep s :: rest => s + totalSleep rest
  | _ :: rest => totalSleep rest

/-- Number of connection attempts (socket creations) in a trace. -/
def countAttempts : List ConnEvent → Nat
  | [] => 0
  | .create _ :: rest => 1 + countAttempts rest
  | _ :: rest => countAttempts rest

/-- Outcome of the body of the server accept loop for one accepted
connection (`src/lib.rs:680-722`): the body ran to completion and the
loop continues; a `?` propagated an `Err` out of `server`; a Rust panic;
or the connection stalled (trace exhausted mid-read). -/
inductive ConnResult where
  | processed
  | errProp (msg : String)
  | panicked
  | stalled
  deriving Repr, DecidableEq

/-- Processing of one accepted connection by `server` (`src/lib.rs:680`):
`let len = recv_u64(fd)?;` then `recv_loop(fd, &mut buf, len)?` into the
fixed `[0u8; BUF_MAX_LEN]` buffer, then
`ecies_ed25519::PublicKey::from_bytes(&buf).unwrap()`.  `parseKey`
abstracts the external `from_bytes` validation of the third-party crate:
`true` means the 32 buffer bytes decode as a public key.  The keypair
generation and the `println!` calls cannot fail and do not affect control
flow. -/
def serverConn (parseKey : List Nat → Bool) (evs : List RecvEvent) : ConnResult :=
  match recv_u64 evs with
  | (.ok len, rest) =>
    match recv_loop rest (List.replicate BUF_MAX_LEN 0) len with
    | (.ok buf, _) => if parseKey buf then .processed else .panicked
    | (.error m, _) => .errProp m
    | (.panic, _) => .panicked
    | (.blocked, _) => .stalled
  | (.error m, _) => .errProp m
  | (.panic, _) => .panicked
  | (.blocked, _) => .stalled

/-- Descriptor events of the server accept loop.  `closedFd` would record
a shutdown/close of an accepted descriptor; the loop body of `server`
binds the accepted descriptor to a bare `RawFd` (never a `VsockSocket`)
and contains no `shutdown`/`close` call, so the embedding never emits it. -/
inductive SrvEvent where
  | acceptedFd (fd : Nat)
  | closedFd (fd : Nat)
  deriving Repr, DecidableEq

/-- Result of running the `loop` of `server` (`src/lib.rs:675`) on a
finite list of incoming connections. -/
inductive ServerResult where
  | looping
  | errReturn (msg : String)
  | panicked
  | stalled
  deriving Repr, DecidableEq

/-- The accept loop of `server` (`src/lib.rs:675-722`), after the
successful `socket`/`bind`/`listen` prologue, run on a finite list of
incoming connections, each given as the accepted descriptor number and
its receive-event trace.  When the supplied connections are exhausted the
loop is still alive, waiting in `accept` (`ServerResult.looping`).  Any
`Err` propagated by a `?` in the body is returned out of `server`,
abandoning the loop. -/
def server (parseKey : List Nat → Bool) :
    List (Nat × List RecvEvent) → ServerResult × List SrvEvent
  | [] => (.looping, [])
  | (fd, evs) :: rest =>
    match serverConn parseKey evs with
    | .processed =>
        let out := server parseKey rest
        (out.1, .acceptedFd fd :: out.2)
    | .errProp m => (.errReturn m, [.acceptedFd fd])
    | .panicked => (.panicked, [.acceptedFd fd])
    | .stalled => (.stalled, [.acceptedFd fd])

/-- `Payload` (`src/models.rs`): the JSON body of `POST /fetch`. -/
structure Payload where
  initial_private_key : List Nat
  initial_public_key_x : List Nat
  initial_public_key_y : List Nat
  delegatee_public_key_x : List Nat
  delegatee_public_key_y : List Nat
  resource : List Nat
  deriving Repr, DecidableEq

/-- The external `recrypt` crate primitives used by `fetch_content`, kept
abstract as deterministic functions: key-blob validation returns `none`
exactly when the crate's `new_from_slice` would return `Err` (wrong byte
length / not on the curve), and the randomized operations take the
randomness as an explicit argument. -/
structure RecryptApi where
  parsePrivateKey : List Nat → Option (List Nat)
  parsePublicKey : List Nat → List Nat → Option (List Nat)
  genSigningKeypair : Nat → List Nat
  encrypt : List Nat → List Nat → List Nat → Option (List Nat)
  genTransformKey : List Nat → List Nat → List Nat → Option (List Nat)
  transform : List Nat → List Nat → List Nat → Option (List Nat)
  serializeTFO : List Nat → String

/-- `hardcoded_plaintext()` (`src/lib.rs:451`): the fixed 384-byte
plaintext fed to the encrypt step in place of the request's `resource`. -/
def hardcoded_plaintext : List Nat :=
  [49, 99, 205, 79, 20, 51, 152, 222, 138, 58, 111, 88, 32, 103, 216, 127, 141, 68, 119, 226,
   101, 44, 246, 48, 34, 10, 5, 106, 222, 237, 4, 240, 70, 22, 249, 34, 140, 196, 6, 50, 48,
   137, 242, 131, 79, 86, 98, 253, 111, 197, 207, 57, 214, 237, 155, 43, 242, 162, 215, 54,
   71, 78, 21, 188, 85, 199, 119, 122, 60, 123, 106, 118, 59, 201, 14, 97, 123, 136, 114, 136,
   146, 129, 43, 44, 53, 87, 155, 102, 84, 223, 126, 100, 58, 113, 117, 210, 108, 14, 5, 221,
   113, 205, 103, 142, 231, 196, 0, 5, 193, 107, 205, 106, 135, 23, 159, 204, 46, 93, 10, 205,
   146, 223, 188, 186, 86, 102, 127, 54, 63, 6, 77, 198, 119, 248, 37, 80, 133, 173, 223, 125,
   229, 121, 26, 228, 198, 77, 73, 252, 104, 71, 84, 149, 74, 205, 70, 39, 120, 145, 127, 222,
   143, 179, 94, 27, 56, 17, 246, 167, 132, 163, 213, 253, 178, 109, 204, 140, 11, 187, 17,
   93, 61, 229, 44, 111, 221, 179, 189, 247, 212, 142, 148, 150, 56, 89, 97, 57, 25, 250, 172,
   72, 79, 154, 84, 177, 36, 22, 54, 184, 101, 49, 122, 139, 178, 173, 147, 131, 154, 14, 3,
   65, 26, 241, 216, 132, 48, 55, 240, 36, 5, 250, 120, 199, 161, 73, 87, 212, 119, 163, 101,
   142, 223, 142, 208, 235, 47, 183, 105, 84, 143, 150, 58, 233, 70, 32, 174, 19, 98, 214, 40,
   73, 132, 28, 129, 200, 14, 224, 42, 183, 47, 147, 7, 132, 200, 180, 121, 215, 109, 7, 169,
   143, 103, 182, 155, 129, 185, 203, 28, 154, 100, 232, 163, 201, 52, 58, 173, 37, 33, 197,
   111, 162, 144, 154, 79, 9, 33, 196, 166, 39, 4, 173, 102, 90, 134, 145, 42, 221, 48, 165,
   92, 148, 36, 247, 160, 73, 197, 53, 7, 187, 49, 138, 40, 146, 176, 70, 77, 220, 23, 55, 88,
   155, 47, 71, 110, 61, 133, 68, 239, 123, 36, 150, 19, 3, 23, 208, 95, 123, 245, 11, 7, 5,
   162, 210, 132, 129, 160, 209, 40, 231, 90, 62, 25, 24, 140, 43, 253, 112, 131, 168, 133,
   232, 26, 32, 36, 49]

/-- The `POST /fetch` handler `fetch_content` (`src/lib.rs:493`).  The
body is given as the result of the serde JSON parse (`Except` mirrors the
`match serde_json::from_str`): a parse failure is answered with a normal
200 response carrying an error text in `transformed_object`.  Every key
parse and every pipeline step is then `.unwrap()`ed in the source, so a
`none` from any of them is a panic.  The plaintext handed to `encrypt` is
`hardcoded_plaintext`, not the request's `resource`; on success the
response is the serialized transformed value. -/
def fetch_content (api : RecryptApi) (rand : Nat) (body : Except String Payload) :
    Outcome String :=
  match body with
  | .error e => .ok ("Failed to parse payload: " ++ e)
  | .ok payload =>
    match api.parsePrivateKey payload.initial_private_key with
    | none => .panic
    | some priv =>
      match api.parsePublicKey payload.initial_public_key_x payload.initial_public_key_y with
      | none => .panic
      | some ownerPk =>
        match api.parsePublicKey payload.delegatee_public_key_x payload.delegatee_public_key_y with
        | none => .panic
        | some delegateePk =>
          let kp := api.genSigningKeypair rand
          match api.encrypt hardcoded_plaintext ownerPk kp with
          | none => .panic
          | some enc =>
            match api.genTransformKey priv delegateePk kp with
            | none => .panic
            | some tk =>
              match api.transform enc tk kp with
              | none => .panic
              | some tv => .ok (api.serializeTFO tv)

/-- A concrete instantiation of the external `recrypt` / `ecies_ed25519`
key validation, used only to evaluate the embedding at concrete inputs:
`recrypt::api::PrivateKey::new_from_slice` rejects every slice that is
not exactly 32 bytes, and `PublicKey::new_from_slice` rejects coordinate
slices that are not exactly 32 bytes each. -/
def len32Api : RecryptApi where
  parsePrivateKey := fun k => if k.length = 32 then some k else none
  parsePublicKey := fun x y =>
    if x.length = 32 && y.length = 32 then some (x ++ y) else none
  genSigningKeypair := fun r => [r % 256]
  encrypt := fun pt pk kp => some (pt ++ pk ++ kp)
  genTransformKey := fun sk pk kp => some (sk ++ pk ++ kp)
  transform := fun ev tk kp => some (ev ++ tk ++ kp)
  serializeTFO := fun bs => toString bs.length

/-- A well-formed `POST /fetch` payload built from 32-byte fields, used
as a concrete evaluation point. -/
def samplePayload : Payload where
  initial_private_key := List.replicate 32 1
  initial_public_key_x := List.replicate 32 2
  initial_public_key_y := List.replicate 32 3
  delegatee_public_key_x := List.replicate 32 4
  delegatee_public_key_y := List.replicate 32 5
  resource := [9, 9, 9]

/- ------------------------------------------------------------------ -/
/- Helper lemmas about the embedded definitions.                       -/
/- ------------------------------------------------------------------ -/

theorem leBytes_length (w v : Nat) : (leBytes w v).length = w := by
  induction w generalizing v with
  | zero => rfl
  | succ w ih => simp [leBytes, ih]

theorem leRead_leBytes (w v : Nat) : leRead (leBytes w v) = v % 256 ^ w := by
  induction w generalizing v with
  | zero => simp [leBytes, leRead, Nat.mod_one]
  | succ w ih =>
      simp only [leBytes, leRead, ih, pow_succ']
      have h1 : v % (256 * 256 ^ w) % 256 = v % 256 :=
        Nat.mod_mod_of_dvd v ⟨256 ^ w, rfl⟩
      have h2 : v % (256 * 256 ^ w) / 256 = v / 256 % 256 ^ w :=
        Nat.mod_mul_right_div_self v 256 (256 ^ w)
      rw [← h1, ← h2]
      exact Nat.mod_add_div _ 256

theorem writeAt_nil (buf : List Nat) (off : Nat) : writeAt buf off [] = buf := by
  simp [writeAt]

theorem writeAt_length_ge (buf : List Nat) (off : Nat) (d : List Nat)
    (h : off ≤ buf.length) : buf.length ≤ (writeAt buf off d).length := by
  simp [writeAt]
  omega

/-- If the send loop reports success, the wire transcript from state
`sent` on is exactly the not-yet-sent part of the first `len` buffer
bytes. -/
theorem sendLoopGo_ok_wire (buf : List Nat) (len : Nat) (evs : List SendEvent) :
    ∀ sent : Nat, len ≤ buf.length →
      (sendLoopGo buf len evs sent).1 = .ok () →
      (sendLoopGo buf len evs sent).2 = (buf.take len).drop sent := by
  induction evs with
  | nil =>
      intro sent hlen h
      by_cases hs : len ≤ sent
      · have hdrop : (buf.take len).drop sent = [] :=
          List.drop_eq_nil_of_le (by simp [List.length_take]; omega)
        simp [sendLoopGo, hs, hdrop]
      · simp only [sendLoopGo, if_neg hs] at h
        split at h <;> simp at h
  | cons e rest ih =>
      intro sent hlen h
      by_cases hs : len ≤ sent
      · have hdrop : (buf.take len).drop sent = [] :=
          List.drop_eq_nil_of_le (by simp [List.length_take]; omega)
        simp [sendLoopGo, hs, hdrop]
      · cases e with
        | accepted n =>
            simp only [sendLoopGo, if_neg hs,
              if_neg (by omega : ¬ buf.length < len)] at h ⊢
            have hw := ih (sent + n) hlen h
            rw [hw]
            have hcomm : (buf.take len).drop (sent + n)
                = ((buf.take len).drop sent).drop n := by
              rw [List.drop_drop, Nat.add_comm]
            rw [hcomm, List.take_append_drop]
        | eintr =>
            simp only [sendLoopGo, if_neg hs,
              if_neg (by omega : ¬ buf.length < len)] at h ⊢
            exact ih (sent + 0) hlen h
        | fail m =>
            simp only [sendLoopGo, if_neg hs] at h
            split at h <;> simp at h


/-- The send loop never panics when the requested length fits the buffer:
every slice `buf[sent..len]` it takes is in bounds. -/
theorem sendLoopGo_ne_panic (buf : List Nat) (len : Nat) (evs : List SendEvent) :
    ∀ sent : Nat, len ≤ buf.length →
      (sendLoopGo buf len evs sent).1 ≠ Outcome.panic := by
  induction evs with
  | nil =>
      intro sent hlen
      by_cases hs : len ≤ sent
      · simp [sendLoopGo, hs]
      · simp only [sendLoopGo, if_neg hs,
          if_neg (show ¬ buf.length < len by omega)]
        simp
  | cons e rest ih =>
      intro sent hlen
      by_cases hs : len ≤ sent
      · simp [sendLoopGo, hs]
      · cases e with
        | accepted n =>
            simp only [sendLoopGo, if_neg hs,
              if_neg (by omega : ¬ buf.length < len)]
            exact ih (sent + n) hlen
        | eintr =>
            simp only [sendLoopGo, if_neg hs,
              if_neg (by omega : ¬ buf.length < len)]
            exact ih (sent + 0) hlen
        | fail m =>
            simp only [sendLoopGo, if_neg hs,
              if_neg (show ¬ buf.length < len by omega)]
            simp

/-- If every event of the trace is an accepted chunk of at least one
byte and there are at least `len - sent` of them, the send loop finishes
with `Ok(())`. -/
theorem sendLoopGo_pos_chunks_ok (buf : List Nat) (len : Nat)
    (evs : List SendEvent) :
    ∀ sent : Nat, len ≤ buf.length →
      (∀ e ∈ evs, ∃ c, e = SendEvent.accepted c ∧ 0 < c) →
      len ≤ sent + evs.length →
      (sendLoopGo buf len evs sent).1 = Outcome.ok () := by
  induction evs with
  | nil =>
      intro sent _ _ hcnt
      simp only [List.length_nil, Nat.add_zero] at hcnt
      simp [sendLoopGo, hcnt]
  | cons e rest ih =>
      intro sent hlen hall hcnt
      by_cases hs : len ≤ sent
      · simp [sendLoopGo, hs]
      · obtain ⟨c, he, hc⟩ := hall e (List.mem_cons_self e rest)
        subst he
        simp only [sendLoopGo, if_neg hs,
          if_neg (by omega : ¬ buf.length < len)]
        apply ih (sent + c) hlen
        · intro x hx
          exact hall x (List.mem_cons_of_mem _ hx)
        · simp only [List.length_cons] at hcnt
          omega

/-- A non-EINTR send failure is returned immediately, with nothing more
put on the wire. -/
theorem sendLoopGo_fail_immediate (buf : List Nat) (len : Nat) (m : String)
    (rest : List SendEvent) (sent : Nat) (hs : sent < len)
    (hlen : len ≤ buf.length) :
    sendLoopGo buf len (SendEvent.fail m :: rest) sent = (Outcome.error m, []) := by
  simp only [sendLoopGo, if_neg (show ¬ len ≤ sent by omega),
    if_neg (show ¬ buf.length < len by omega)]

/-- An EINTR event is retried: it only advances the trace, the loop state
is unchanged (the code adds a size of `0`). -/
theorem sendLoopGo_eintr_retry (buf : List Nat) (len : Nat)
    (rest : List SendEvent) (sent : Nat) (hs : sent < len)
    (hlen : len ≤ buf.length) :
    sendLoopGo buf len (SendEvent.eintr :: rest) sent
      = sendLoopGo buf len rest sent := by
  simp only [sendLoopGo, if_neg (show ¬ len ≤ sent by omega),
    if_neg (show ¬ buf.length < len by omega), Nat.add_zero]

/-- The receive loop never panics when the requested length fits the
buffer: delivered chunks never shrink the buffer below `len`. -/
theorem recvLoopGo_ne_panic (len : Nat) (evs : List RecvEvent) :
    ∀ (buf : List Nat) (rcvd : Nat), len ≤ buf.length →
      (recvLoopGo len evs buf rcvd).1 ≠ Outcome.panic := by
  induction evs with
  | nil =>
      intro buf rcvd hlen
      by_cases hs : len ≤ rcvd
      · simp [recvLoopGo, hs]
      · simp only [recvLoopGo, if_neg hs,
          if_neg (show ¬ buf.length < len by omega)]
        simp
  | cons e rest ih =>
      intro buf rcvd hlen
      by_cases hs : len ≤ rcvd
      · simp [recvLoopGo, hs]
      · cases e with
        | chunk d =>
            simp only [recvLoopGo, if_neg hs,
              if_neg (by omega : ¬ buf.length < len)]
            apply ih
            have := writeAt_length_ge buf rcvd d (by omega)
            omega
        | eintr =>
            simp only [recvLoopGo, if_neg hs,
              if_neg (by omega : ¬ buf.length < len)]
            exact ih buf (rcvd + 0) hlen
        | fail m =>
            simp only [recvLoopGo, if_neg hs,
              if_neg (show ¬ buf.length < len by omega)]
            simp

/-- On a trace of zero-length reads (a closed peer) the receive loop
consumes every event and is still waiting: it has not returned, neither
with a value nor with an error. -/
theorem recvLoopGo_zero_reads (len : Nat) (n : Nat) :
    ∀ (buf : List Nat) (rcvd : Nat), rcvd < len → len ≤ buf.length →
      recvLoopGo len (List.replicate n (RecvEvent.chunk [])) buf rcvd
        = (Outcome.blocked, []) := by
  induction n with
  | zero =>
      intro buf rcvd hs hlen
      simp only [List.replicate, recvLoopGo, if_neg (show ¬ len ≤ rcvd by omega),
        if_neg (show ¬ buf.length < len by omega)]
  | succ n ih =>
      intro buf rcvd hs hlen
      simp only [List.replicate_succ, recvLoopGo,
        if_neg (by omega : ¬ len ≤ rcvd), if_neg (by omega : ¬ buf.length < len)]
      rw [writeAt_nil]
      simpa using ih buf rcvd hs hlen

/-- A single delivered chunk of exactly the requested 8 bytes completes
`recv_loop` on the zeroed `u64` buffer and yields that chunk. -/
theorem recv_loop_u64_chunk (d : List Nat) (hd : d.length = 8) :
    recv_loop [RecvEvent.chunk d] (List.replicate 8 0) 8 = (Outcome.ok d, []) := by
  simp only [recv_loop, recvLoopGo, if_neg (show ¬ (8:Nat) ≤ 0 by omega),
    if_neg (show ¬ (List.replicate 8 (0:Nat)).length < 8 by simp)]
  rw [hd]
  simp only [recvLoopGo, if_pos (show (8:Nat) ≤ 0 + 8 by omega)]
  simp [writeAt, hd]

/-- Once `recv_bytes` has reached `len` the receive loop returns the
buffer at once, consuming nothing. -/
theorem recvLoopGo_done (len : Nat) (evs : List RecvEvent) (buf : List Nat)
    (rcvd : Nat) (h : len ≤ rcvd) :
    recvLoopGo len evs buf rcvd = (Outcome.ok buf, evs) := by
  cases evs <;> simp [recvLoopGo, h]

/-- A requested length larger than the buffer makes the first iteration
of the send loop slice out of bounds: a panic, whatever the trace. -/
theorem sendLoopGo_oob (buf : List Nat) (len : Nat) (evs : List SendEvent)
    (sent : Nat) (h1 : sent < len) (h2 : buf.length < len) :
    sendLoopGo buf len evs sent = (Outcome.panic, []) := by
  cases evs <;>
    simp only [sendLoopGo, if_neg (show ¬ len ≤ sent by omega), if_pos h2]

/-- A requested length larger than the buffer makes the first iteration
of the receive loop slice out of bounds: a panic, whatever the trace. -/
theorem recvLoopGo_oob (len : Nat) (evs : List RecvEvent) (buf : List Nat)
    (rcvd : Nat) (h1 : rcvd < len) (h2 : buf.length < len) :
    (recvLoopGo len evs buf rcvd).1 = Outcome.panic := by
  cases evs <;>
    simp only [recvLoopGo, if_neg (show ¬ len ≤ rcvd by omega), if_pos h2]

/-- `recv_u64` on a trace whose first event delivers exactly 8 bytes
decodes those bytes and leaves the rest of the trace unconsumed. -/
theorem recv_u64_chunk (d : List Nat) (hd : d.length = 8) (rest : List RecvEvent) :
    recv_u64 (RecvEvent.chunk d :: rest) = (Outcome.ok (leRead d), rest) := by
  have hrl : recv_loop (RecvEvent.chunk d :: rest) (List.replicate 8 0) 8
      = (Outcome.ok d, rest) := by
    simp only [recv_loop, recvLoopGo, if_neg (show ¬ (8:Nat) ≤ 0 by omega),
      if_neg (show ¬ (List.replicate 8 (0:Nat)).length < 8 by simp)]
    rw [recvLoopGo_done 8 rest _ (0 + d.length) (by omega)]
    simp [writeAt, hd]
  simp only [recv_u64, hrl]
  rw [List.take_of_length_le (by omega)]

/-- The attempt loop of the connector performs at most `rem` attempts. -/
theorem vsockConnectGo_attempts_le (res : Nat → AttemptResult) :
    ∀ (rem i : Nat) (e : String),
      countAttempts (vsockConnectGo res i rem e).2 ≤ rem := by
  intro rem
  induction rem with
  | zero => intro i e; simp [vsockConnectGo, countAttempts]
  | succ rem ih =>
      intro i e
      cases hres : res i with
      | sockErr m => simp [vsockConnectGo, hres, countAttempts]
      | connOk => simp [vsockConnectGo, hres, countAttempts]
      | connErr m =>
          simp only [vsockConnectGo, hres, countAttempts]
          have := ih (i + 1) ("Failed to connect: " ++ m)
          omega

/-- If the first `k` attempts fail at `connect` and attempt `k` succeeds,
the attempt loop returns the descriptor of attempt `k`. -/
theorem vsockConnectGo_first_ok (res : Nat → AttemptResult) :
    ∀ (k i rem : Nat) (e : String), k < rem →
      (∀ j, j < k → ∃ m, res (i + j) = AttemptResult.connErr m) →
      res (i + k) = AttemptResult.connOk →
      (vsockConnectGo res i rem e).1 = Except.ok (i + k) := by
  intro k
  induction k with
  | zero =>
      intro i rem e hrem _ hok
      match rem, hrem with
      | rem + 1, _ =>
        simp only [Nat.add_zero] at hok
        simp [vsockConnectGo, hok]
  | succ k ih =>
      intro i rem e hrem hfail hok
      match rem, hrem with
      | rem + 1, hrem =>
        obtain ⟨m, hm⟩ := hfail 0 (Nat.succ_pos k)
        simp only [Nat.add_zero] at hm
        simp only [vsockConnectGo, hm]
        have hstep := ih (i + 1) rem ("Failed to connect: " ++ m)
          (by omega)
          (by
            intro j hj
            obtain ⟨m2, hm2⟩ := hfail (j + 1) (by omega)
            exact ⟨m2, by rw [show i + 1 + j = i + (j + 1) by omega]; exact hm2⟩)
          (by rw [show i + 1 + k = i + (k + 1) by omega]; exact hok)
        rw [hstep]
        congr 1
        omega

/-- The server's key-exchange read panics on an oversized declared
length: `recv_u64` decodes the peer-supplied length `l`, and
`recv_loop(fd, &mut buf, l)` with the fixed `BUF_MAX_LEN` buffer slices
out of bounds as soon as `l` exceeds `BUF_MAX_LEN`. -/
theorem serverConn_oversized (pk : List Nat → Bool) (l : Nat)
    (rest : List RecvEvent) (h1 : BUF_MAX_LEN < l) (h2 : l < 2 ^ 64) :
    serverConn pk (RecvEvent.chunk (leBytes 8 l) :: rest) = ConnResult.panicked := by
  have h28 : (256 : Nat) ^ 8 = 2 ^ 64 := by norm_num
  have hlr : leRead (leBytes 8 l) = l := by
    rw [leRead_leBytes, h28, Nat.mod_eq_of_lt h2]
  simp only [serverConn, recv_u64_chunk (leBytes 8 l) (leBytes_length 8 l) rest, hlr]
  have hoob : (recv_loop rest (List.replicate BUF_MAX_LEN 0) l).1 = Outcome.panic := by
    apply recvLoopGo_oob
    · simp only [BUF_MAX_LEN] at h1; omega
    · simp only [List.length_replicate]; omega
  rcases hpair : recv_loop rest (List.replicate BUF_MAX_LEN 0) l with ⟨o, lo⟩
  rw [hpair] at hoob
  simp only at hoob
  subst hoob
  rfl

/-- C5: `send_loop` succeeds only after transmitting exactly the first
`len` buffer bytes in order — partial kernel writes of any positive size
are resumed from the first unsent byte, an EINTR is retried with no state
change, and any other send failure is returned at once with nothing more
sent. -/
theorem send_loop_all_or_nothing (buf : List Nat) (len : Nat)
    (hlen : len ≤ buf.length) :
    (∀ evs, (send_loop buf len evs).1 = Outcome.ok () →
       (send_loop buf len evs).2 = buf.take len)
    ∧ (∀ evs, (∀ e ∈ evs, ∃ c, e = SendEvent.accepted c ∧ 0 < c) →
         len ≤ evs.length → (send_loop buf len evs).1 = Outcome.ok ())
    ∧ (∀ (m : String) (rest : List SendEvent) (sent : Nat), sent < len →
         sendLoopGo buf len (SendEvent.fail m :: rest) sent = (Outcome.error m, []))
    ∧ (∀ (rest : List SendEvent) (sent : Nat), sent < len →
         sendLoopGo buf len (SendEvent.eintr :: rest) sent
           = sendLoopGo buf len rest sent) := by
  refine ⟨?_, ?_, ?_, ?_⟩
  · intro evs hok
    have h := sendLoopGo_ok_wire buf len evs 0 hlen hok
    simpa using h
  · intro evs hall hcnt
    exact sendLoopGo_pos_chunks_ok buf len evs 0 hlen hall (by omega)
  · intro m rest sent hs
    exact sendLoopGo_fail_immediate buf len m rest sent hs hlen
  · intro rest sent hs
    exact sendLoopGo_eintr_retry buf len rest sent hs hlen

/-- C5 witness: a concrete run through partial writes of sizes 2 and 1
transmits exactly the first 3 bytes, and single-byte chunks complete. -/
theorem send_loop_all_or_nothing_witness :
    (send_loop [1, 2, 3, 4] 3 [SendEvent.accepted 2, SendEvent.accepted 1]).2 = [1, 2, 3]
    ∧ (send_loop [1, 2, 3, 4] 3
        [SendEvent.accepted 1, SendEvent.accepted 1, SendEvent.accepted 1]).1
        = Outcome.ok () := by
  constructor
  · have h := (send_loop_all_or_nothing [1, 2, 3, 4] 3 (by decide)).1
      [SendEvent.accepted 2, SendEvent.accepted 1] (by decide)
    simpa using h
  · refine (send_loop_all_or_nothing [1, 2, 3, 4] 3 (by decide)).2.1
      [SendEvent.accepted 1, SendEvent.accepted 1, SendEvent.accepted 1]
      ?_ (by decide)
    intro e he
    simp only [List.mem_cons, List.not_mem_nil, or_false] at he
    rcases he with h | h | h <;> subst h <;> exact ⟨1, rfl, Nat.one_pos⟩

/-- C6: the framing round-trip.  Whenever `send_u64 v` succeeds it puts
exactly the fixed 8-byte little-endian encoding of `v` on the wire, and
`recv_u64` run on that wire decodes `v` back. -/
theorem u64_roundtrip (v : Nat) (evs : List SendEvent) (hv : v < 2 ^ 64)
    (hok : (send_u64 v evs).1 = Outcome.ok ()) :
    (send_u64 v evs).2 = leBytes 8 v
    ∧ recv_u64 [RecvEvent.chunk ((send_u64 v evs).2)] = (Outcome.ok v, []) := by
  have hlen : (8 : Nat) ≤ (leBytes 8 v).length := by rw [leBytes_length]
  have hwire : (send_u64 v evs).2 = leBytes 8 v := by
    have h := sendLoopGo_ok_wire (leBytes 8 v) 8 evs 0 hlen hok
    simpa [send_u64, send_loop,
      List.take_of_length_le (le_of_eq (leBytes_length 8 v))] using h
  refine ⟨hwire, ?_⟩
  rw [hwire, recv_u64_chunk _ (leBytes_length 8 v), leRead_leBytes]
  have h28 : (256 : Nat) ^ 8 = 2 ^ 64 := by norm_num
  rw [h28, Nat.mod_eq_of_lt hv]

/-- C6 witness: round trip of the concrete value 65535 over a one-shot
send. -/
theorem u64_roundtrip_witness :
    recv_u64 [RecvEvent.chunk ((send_u64 65535 [SendEvent.accepted 8]).2)]
      = (Outcome.ok 65535, []) :=
  (u64_roundtrip 65535 [SendEvent.accepted 8] (by norm_num) (by decide)).2

/-- C2: on a closed connection, whose `recv` yields zero bytes forever,
`recv_loop` consumes any number `n` of zero-length reads without ever
returning — neither a value nor an `Err` — because the code maps a
zero-byte read to `size = 0` and retries, exactly like an EINTR.  There
is no bounded-retry error path. -/
theorem recv_loop_spins (n len : Nat) (buf : List Nat) (h0 : 0 < len)
    (hlen : len ≤ buf.length) :
    recv_loop (List.replicate n (RecvEvent.chunk [])) buf len
      = (Outcome.blocked, []) :=
  recvLoopGo_zero_reads len n buf 0 h0 hlen

/-- C2 witness: a thousand zero-length reads of an 8-byte frame leave the
loop still spinning. -/
theorem recv_loop_spins_witness :
    recv_loop (List.replicate 1000 (RecvEvent.chunk [])) (List.replicate 8 0) 8
      = (Outcome.blocked, []) :=
  recv_loop_spins 1000 8 (List.replicate 8 0) (by decide) (by simp)

/-- C10: `len ≤ buf.len()` is the implicit precondition of both loops —
under it no slice access panics; when `len` exceeds the buffer the very
first iteration panics instead of returning an `Err`, and the server
forwards a peer-supplied `recv_u64` length above `BUF_MAX_LEN` straight
into that out-of-bounds slice. -/
theorem loops_slice_bounds :
    (∀ (buf : List Nat) (len : Nat) (sevs : List SendEvent) (revs : List RecvEvent),
       len ≤ buf.length →
       (send_loop buf len sevs).1 ≠ Outcome.panic
       ∧ (recv_loop revs buf len).1 ≠ Outcome.panic)
    ∧ (∀ (buf : List Nat) (len : Nat) (sevs : List SendEvent) (revs : List RecvEvent),
       buf.length < len →
       (send_loop buf len sevs).1 = Outcome.panic
       ∧ (recv_loop revs buf len).1 = Outcome.panic)
    ∧ (∀ (pk : List Nat → Bool) (l : Nat) (rest : List RecvEvent),
       BUF_MAX_LEN < l → l < 2 ^ 64 →
       serverConn pk (RecvEvent.chunk (leBytes 8 l) :: rest) = ConnResult.panicked) := by
  refine ⟨?_, ?_, ?_⟩
  · intro buf len sevs revs hlen
    exact ⟨sendLoopGo_ne_panic buf len sevs 0 hlen,
      recvLoopGo_ne_panic len revs buf 0 hlen⟩
  · intro buf len sevs revs hoob
    constructor
    · rw [send_loop, sendLoopGo_oob buf len sevs 0 (by omega) hoob]
    · exact recvLoopGo_oob len revs buf 0 (by omega) hoob
  · intro pk l rest h1 h2
    exact serverConn_oversized pk l rest h1 h2

/-- C10 witness: with the server's 32-byte buffer, length 32 is safe and
length 33 panics, also through the server's key-exchange step. -/
theorem loops_slice_bounds_witness :
    (recv_loop [] (List.replicate 32 0) 32).1 ≠ Outcome.panic
    ∧ (send_loop (List.replicate 32 0) 33 []).1 = Outcome.panic
    ∧ (recv_loop [] (List.replicate 32 0) 33).1 = Outcome.panic
    ∧ serverConn (fun _ => true) [RecvEvent.chunk (leBytes 8 33)]
        = ConnResult.panicked := by
  refine ⟨(loops_slice_bounds.1 (List.replicate 32 0) 32 [] [] (by simp)).2,
    (loops_slice_bounds.2.1 (List.replicate 32 0) 33 [] [] (by simp)).1,
    (loops_slice_bounds.2.1 (List.replicate 32 0) 33 [] [] (by simp)).2,
    loops_slice_bounds.2.2 (fun _ => true) 33 [] (by decide) (by norm_num)⟩

/-- C7: the connector makes at most 5 attempts; when all 5 `connect`
calls fail it returns a connection error carrying the last underlying
error text after the exact event trace create/sleep `2^i`/drop for
`i = 0..4` (backoff totalling 31 seconds, each failed attempt's
descriptor dropped before the next is created); when attempt `k` is the
first to succeed, its handle is returned. -/
theorem vsock_connect_backoff (res : Nat → AttemptResult) (msgs : Nat → String) :
    countAttempts (vsock_connect res).2 ≤ MAX_CONNECTION_ATTEMPTS
    ∧ ((∀ i, i < 5 → res i = AttemptResult.connErr (msgs i)) →
        vsock_connect res
          = (Except.error ("Failed to connect: " ++ msgs 4),
             [ConnEvent.create 0, ConnEvent.sleep 1, ConnEvent.dropFd 0,
              ConnEvent.create 1, ConnEvent.sleep 2, ConnEvent.dropFd 1,
              ConnEvent.create 2, ConnEvent.sleep 4, ConnEvent.dropFd 2,
              ConnEvent.create 3, ConnEvent.sleep 8, ConnEvent.dropFd 3,
              ConnEvent.create 4, ConnEvent.sleep 16, ConnEvent.dropFd 4])
        ∧ totalSleep (vsock_connect res).2 = 31)
    ∧ (∀ k, k < 5 → (∀ i, i < k → res i = AttemptResult.connErr (msgs i)) →
        res k = AttemptResult.connOk →
        (vsock_connect res).1 = Except.ok k) := by
  refine ⟨vsockConnectGo_attempts_le res MAX_CONNECTION_ATTEMPTS 0 "", ?_, ?_⟩
  · intro h
    have h0 := h 0 (by norm_num)
    have h1 := h 1 (by norm_num)
    have h2 := h 2 (by norm_num)
    have h3 := h 3 (by norm_num)
    have h4 := h 4 (by norm_num)
    have htr : vsock_connect res
        = (Except.error ("Failed to connect: " ++ msgs 4),
           [ConnEvent.create 0, ConnEvent.sleep 1, ConnEvent.dropFd 0,
            ConnEvent.create 1, ConnEvent.sleep 2, ConnEvent.dropFd 1,
            ConnEvent.create 2, ConnEvent.sleep 4, ConnEvent.dropFd 2,
            ConnEvent.create 3, ConnEvent.sleep 8, ConnEvent.dropFd 3,
            ConnEvent.create 4, ConnEvent.sleep 16, ConnEvent.dropFd 4]) := by
      show vsockConnectGo res 0 (4 + 1) "" = _
      rw [vsockConnectGo]
      rw [h0]
      show (fun out => ((out.1 : Except String Nat),
        ConnEvent.create 0 :: ConnEvent.sleep (2 ^ 0) :: ConnEvent.dropFd 0 :: out.2))
          (vsockConnectGo res 1 (3 + 1) ("Failed to connect: " ++ msgs 0)) = _
      rw [vsockConnectGo]
      rw [h1]
      show (fun out => ((out.1 : Except String Nat),
        ConnEvent.create 0 :: ConnEvent.sleep (2 ^ 0) :: ConnEvent.dropFd 0 ::
        ConnEvent.create 1 :: ConnEvent.sleep (2 ^ 1) :: ConnEvent.dropFd 1 :: out.2))
          (vsockConnectGo res 2 (2 + 1) ("Failed to connect: " ++ msgs 1)) = _
      rw [vsockConnectGo]
      rw [h2]
      show (fun out => ((out.1 : Except String Nat),
        ConnEvent.create 0 :: ConnEvent.sleep (2 ^ 0) :: ConnEvent.dropFd 0 ::
        ConnEvent.create 1 :: ConnEvent.sleep (2 ^ 1) :: ConnEvent.dropFd 1 ::
        ConnEvent.create 2 :: ConnEvent.sleep (2 ^ 2) :: ConnEvent.dropFd 2 :: out.2))
          (vsockConnectGo res 3 (1 + 1) ("Failed to connect: " ++ msgs 2)) = _
      rw [vsockConnectGo]
      rw [h3]
      show (fun out => ((out.1 : Except String Nat),
        ConnEvent.create 0 :: ConnEvent.sleep (2 ^ 0) :: ConnEvent.dropFd 0 ::
        ConnEvent.create 1 :: ConnEvent.sleep (2 ^ 1) :: ConnEvent.dropFd 1 ::
        ConnEvent.create 2 :: ConnEvent.sleep (2 ^ 2) :: ConnEvent.dropFd 2 ::
        ConnEvent.create 3 :: ConnEvent.sleep (2 ^ 3) :: ConnEvent.dropFd 3 :: out.2))
          (vsockConnectGo res 4 (0 + 1) ("Failed to connect: " ++ msgs 3)) = _
      rw [vsockConnectGo]
      rw [h4]
      show ((vsockConnectGo res 5 0 ("Failed to connect: " ++ msgs 4)).1,
        ConnEvent.create 0 :: ConnEvent.sleep (2 ^ 0) :: ConnEvent.dropFd 0 ::
        ConnEvent.create 1 :: ConnEvent.sleep (2 ^ 1) :: ConnEvent.dropFd 1 ::
        ConnEvent.create 2 :: ConnEvent.sleep (2 ^ 2) :: ConnEvent.dropFd 2 ::
        ConnEvent.create 3 :: ConnEvent.sleep (2 ^ 3) :: ConnEvent.dropFd 3 ::
        ConnEvent.create 4 :: ConnEvent.sleep (2 ^ 4) :: ConnEvent.dropFd 4 ::
        (vsockConnectGo res 5 0 ("Failed to connect: " ++ msgs 4)).2) = _
      rw [vsockConnectGo]
      norm_num
    exact ⟨htr, by rw [htr]; simp [totalSleep]⟩
  · intro k hk hfail hok
    have h := vsockConnectGo_first_ok res k 0 MAX_CONNECTION_ATTEMPTS ""
      (by simpa [MAX_CONNECTION_ATTEMPTS] using hk)
      (by intro j hj; exact ⟨msgs j, by simpa using hfail j hj⟩)
      (by simpa using hok)
    simpa [vsock_connect] using h

/-- C7 witness: with every `connect` failing with text "unreachable", the
connector returns the connection error with that text after the full
five-attempt trace with 31 seconds of backoff; when the third attempt
succeeds, its handle is returned. -/
theorem vsock_connect_backoff_witness :
    vsock_connect (fun _ => AttemptResult.connErr "unreachable")
      = (Except.error "Failed to connect: unreachable",
         [ConnEvent.create 0, ConnEvent.sleep 1, ConnEvent.dropFd 0,
          ConnEvent.create 1, ConnEvent.sleep 2, ConnEvent.dropFd 1,
          ConnEvent.create 2, ConnEvent.sleep 4, ConnEvent.dropFd 2,
          ConnEvent.create 3, ConnEvent.sleep 8, ConnEvent.dropFd 3,
          ConnEvent.create 4, ConnEvent.sleep 16, ConnEvent.dropFd 4])
    ∧ totalSleep (vsock_connect (fun _ => AttemptResult.connErr "unreachable")).2 = 31
    ∧ (vsock_connect
        (fun i => if i < 2 then AttemptResult.connErr "x" else AttemptResult.connOk)).1
        = Except.ok 2 := by
  refine ⟨?_, ?_, ?_⟩
  · exact ((vsock_connect_backoff (fun _ => AttemptResult.connErr "unreachable")
      (fun _ => "unreachable")).2.1 (fun _ _ => rfl)).1
  · exact ((vsock_connect_backoff (fun _ => AttemptResult.connErr "unreachable")
      (fun _ => "unreachable")).2.1 (fun _ _ => rfl)).2
  · exact (vsock_connect_backoff
      (fun i => if i < 2 then AttemptResult.connErr "x" else AttemptResult.connOk)
      (fun _ => "x")).2.2 2 (by norm_num)
      (fun i hi => by simp [hi]) (by norm_num)

/-- C1: the server's key-exchange step does not return a key-format
error on bad input — it panics.  A declared frame length of 33 (one past
`BUF_MAX_LEN`) panics in the out-of-bounds slice, and a 32-byte blob
rejected by the public-key parser panics in the `unwrap`; neither outcome
is an `Err` handed to the caller. -/
theorem server_key_frame_panics :
    serverConn (fun _ => false) [RecvEvent.chunk (leBytes 8 33)] = ConnResult.panicked
    ∧ serverConn (fun _ => false)
        [RecvEvent.chunk (leBytes 8 32), RecvEvent.chunk (List.replicate 32 1)]
        = ConnResult.panicked
    ∧ ∀ m, ConnResult.panicked ≠ ConnResult.errProp m := by
  refine ⟨by decide, by decide, ?_⟩
  intro m h
  cases h

/-- C3 counterexample: a framed-read failure on the first accepted
connection is propagated out of `server` by the `?` operator.  The
result of `server` is the `Err` return itself and the second pending
connection is never accepted, so the listener loop did not stay alive. -/
theorem server_error_ends_loop_cex :
    server (fun _ => true)
      [(4, [RecvEvent.fail "ECONNRESET"]),
       (5, [RecvEvent.chunk (leBytes 8 32), RecvEvent.chunk (List.replicate 32 1)])]
      = (ServerResult.errReturn "ECONNRESET", [SrvEvent.acceptedFd 4]) := by
  decide

/-- C3 amended: every framed-read error while processing an accepted
connection is returned out of the `server` function, terminating the
accept loop with only that connection in the trace; later connections
are never processed. -/
theorem server_error_propagates (pk : List Nat → Bool) (fd : Nat)
    (evs : List RecvEvent) (rest : List (Nat × List RecvEvent)) (m : String)
    (h : serverConn pk evs = ConnResult.errProp m) :
    server pk ((fd, evs) :: rest)
      = (ServerResult.errReturn m, [SrvEvent.acceptedFd fd]) := by
  simp [server, h]

/-- C3 witness: a reset during the length read of connection 9 is
returned from `server`. -/
theorem server_error_propagates_witness :
    server (fun _ => true) [(9, [RecvEvent.fail "EPIPE"])]
      = (ServerResult.errReturn "EPIPE", [SrvEvent.acceptedFd 9]) :=
  server_error_propagates (fun _ => true) 9 [RecvEvent.fail "EPIPE"] [] "EPIPE"
    (by decide)

/-- C8 counterexample: two well-formed connections are accepted and
processed in sequence, yet the trace contains no teardown of descriptor
4 — in particular none before descriptor 7 is accepted.  The accepted
descriptor is a bare `RawFd`; nothing ever shuts it down or closes it. -/
theorem server_never_closes_cex :
    server (fun _ => true)
      [(4, [RecvEvent.chunk (leBytes 8 32), RecvEvent.chunk (List.replicate 32 1)]),
       (7, [RecvEvent.chunk (leBytes 8 32), RecvEvent.chunk (List.replicate 32 1)])]
      = (ServerResult.looping, [SrvEvent.acceptedFd 4, SrvEvent.acceptedFd 7])
    ∧ SrvEvent.closedFd 4 ∉
        (server (fun _ => true)
          [(4, [RecvEvent.chunk (leBytes 8 32), RecvEvent.chunk (List.replicate 32 1)]),
           (7, [RecvEvent.chunk (leBytes 8 32), RecvEvent.chunk (List.replicate 32 1)])]).2 := by
  constructor
  · decide
  · decide

/-- C8 amended: the connector's failed attempts do drop their socket
(shutdown then close via `VsockSocket::drop`) within the attempt's
scope, but the server never closes any accepted descriptor: no teardown
event for any descriptor ever appears in its trace, whatever the
connections. -/
theorem socket_teardown_amended :
    (∀ (res : Nat → AttemptResult) (i rem : Nat) (e m : String),
       res i = AttemptResult.connErr m →
       ConnEvent.dropFd i ∈ (vsockConnectGo res i (rem + 1) e).2)
    ∧ (∀ (pk : List Nat → Bool) (conns : List (Nat × List RecvEvent)) (fd : Nat),
       SrvEvent.closedFd fd ∉ (server pk conns).2) := by
  constructor
  · intro res i rem e m h
    simp [vsockConnectGo, h]
  · intro pk conns fd
    induction conns with
    | nil => simp [server]
    | cons c rest ih =>
        obtain ⟨cfd, evs⟩ := c
        cases hc : serverConn pk evs <;> simp [server, hc, ih]

/-- C8 witness: the first failed connect attempt's descriptor is dropped,
and the server run of the counterexample's shape never closes fd 4. -/
theorem socket_teardown_amended_witness :
    ConnEvent.dropFd 0 ∈
      (vsockConnectGo (fun _ => AttemptResult.connErr "down") 0 5 "").2
    ∧ SrvEvent.closedFd 4 ∉
        (server (fun _ => true) [(4, [RecvEvent.fail "gone"])]).2 := by
  constructor
  · exact socket_teardown_amended.1 (fun _ => AttemptResult.connErr "down")
      0 4 "" "down" rfl
  · exact socket_teardown_amended.2 (fun _ => true) [(4, [RecvEvent.fail "gone"])] 4

/-- C4: `fetch_content` answers an unparseable JSON body with a
structured error payload, but a key field the curve library rejects
(wrong byte length/format) hits an `unwrap` and panics instead of
producing an error payload. -/
theorem fetch_content_error_handling :
    (∀ (api : RecryptApi) (r : Nat) (e : String),
       fetch_content api r (Except.error e)
         = Outcome.ok ("Failed to parse payload: " ++ e))
    ∧ (∀ (api : RecryptApi) (r : Nat) (p : Payload),
       api.parsePrivateKey p.initial_private_key = none →
       fetch_content api r (Except.ok p) = Outcome.panic) := by
  constructor
  · intro api r e
    rfl
  · intro api r p h
    simp [fetch_content, h]

/-- C4 witness: a malformed-JSON body yields the error payload, and a
3-byte private key (rejected by the 32-byte length check) panics. -/
theorem fetch_content_error_handling_witness :
    fetch_content len32Api 7 (Except.error "bad json")
      = Outcome.ok ("Failed to parse payload: " ++ "bad json")
    ∧ fetch_content len32Api 7
        (Except.ok { samplePayload with initial_private_key := [1, 2, 3] })
        = Outcome.panic := by
  refine ⟨fetch_content_error_handling.1 len32Api 7 "bad json", ?_⟩
  exact fetch_content_error_handling.2 len32Api 7
    { samplePayload with initial_private_key := [1, 2, 3] } (by decide)

/-- C9: the `POST /fetch` response does not depend on the `resource`
field — the encrypt step is fed the fixed `hardcoded_plaintext`, so two
payloads differing only in `resource`, run with identical randomness and
primitives, produce identical responses. -/
theorem fetch_content_ignores_resource (api : RecryptApi) (r : Nat) (p : Payload)
    (res2 : List Nat) :
    fetch_content api r (Except.ok { p with resource := res2 })
      = fetch_content api r (Except.ok p) := by
  rfl
